import Mathlib

/-!
Verification of the vitest-mcp core specification.

The repository ships the test suites for its core modules
(`config-loader`, `run-tests`, `set-project-root`, `file-utils`,
`vitest-config-reader`) but the module implementations themselves are not
present in the source tree.  Each operation below is therefore a shallow
embedding modelled from the specification's description of the missing
module, kept consistent with the behaviour exercised by the shipped test
suites.  Fallible operations are embedded as total functions returning the
structured result shapes the spec describes; filesystem and environment
effects are abstracted as explicit function-valued parameters.
-/

namespace VMCP

/-- Character-list test: `charsPre pat cs` is true when `pat` is a prefix
of `cs`.  Helper for substring containment. -/
def charsPre : List Char → List Char → Bool
  | [], _ => true
  | _ :: _, [] => false
  | a :: as, b :: bs => a = b && charsPre as bs

/-- Character-list test: `charsSub pat cs` is true when `pat` occurs
contiguously inside `cs`.  Helper for substring containment. -/
def charsSub (pat : List Char) : List Char → Bool
  | [] => pat.isEmpty
  | c :: rest => charsPre pat (c :: rest) || charsSub pat rest

/-- `containsStr s pat` is true when `pat` occurs as a substring of `s`;
embeds the JavaScript `String.prototype.includes` checks used by the
shipped test suites on result messages. -/
def containsStr (s pat : String) : Bool :=
  charsSub pat.data s.data

/-- Embeds the blank-input test `!path || path.trim().length === 0`:
true when the string is empty or consists only of spaces. -/
def isBlank (s : String) : Bool :=
  s.data.all (fun c => c = ' ')

/-- Splits a character list on `/` separators.  Helper for path
resolution. -/
def splitSlash : List Char → List (List Char)
  | [] => [[]]
  | c :: rest =>
    let r := splitSlash rest
    if c = '/' then [] :: r
    else
      match r with
      | [] => [[c]]
      | g :: gs => (c :: g) :: gs

/-- Path segments of a string path: split on `/` and drop empty pieces. -/
def pathSegs (p : String) : List String :=
  ((splitSlash p.data).map (fun g => String.mk g)).filter (fun s => s ≠ "")

/-- Normalises a segment list the way Node's `path.resolve` does: `.` and
empty segments vanish, `..` pops the previous segment (staying put at the
root).  The accumulator holds the processed segments in reverse. -/
def normSegs (acc : List String) : List String → List String
  | [] => acc.reverse
  | s :: rest =>
    if s = "." then normSegs acc rest
    else if s = ".." then normSegs (acc.drop 1) rest
    else normSegs (s :: acc) rest

/-- Modelled from the spec: every path argument is resolved to an absolute
path (Node `path.resolve`) — an absolute input is normalised as is, a
relative input is resolved against the working directory `cwd`. -/
def resolvePath (cwd p : String) : String :=
  let segs :=
    if charsPre ['/'] p.data then pathSegs p
    else pathSegs cwd ++ pathSegs p
  "/" ++ String.intercalate "/" (normSegs [] segs)

/-- Last non-empty path segment, used as the project name
(`lastPathSegment` in the spec). -/
def lastSegment (p : String) : String :=
  (pathSegs p).getLast?.getD ""

/-- Output format of a test run, per the spec (`'summary' | 'detailed'`). -/
inductive TestFormat where
  | summary
  | detailed
deriving DecidableEq, Repr

/-- Target kind in an execution context, per the spec
(`targetType ∈ {file, directory}`). -/
inductive TargetKind where
  | file
  | directory
deriving DecidableEq, Repr

/-- Execution context built by `createExecutionContext`, per the spec:
`{isMultiFile, targetType, estimatedTestCount?}`. -/
structure TestExecutionContext where
  isMultiFile : Bool
  targetType : TargetKind
  estimatedTestCount : Option Nat := none
deriving DecidableEq, Repr

/-- Arguments of the `run_tests` tool, per the spec:
`(target, format?, project?, showLogs?)`. -/
structure RunTestsArgs where
  target : String
  format : Option TestFormat := none
  project : Option String := none
  showLogs : Option Bool := none
deriving DecidableEq, Repr

/-- Built-in default output format (`testDefaults.format = 'summary'`). -/
def defaultTestFormat : TestFormat := TestFormat.summary

/-- Modelled from the spec: `determineFormat(args, context, hasFailures)`
from the missing `run-tests` module — explicit `args.format` always wins;
else `hasFailures` forces `'detailed'`; else `context.isMultiFile` forces
`'detailed'`; else falls back to the configured default format. -/
def determineFormat (configDefault : TestFormat) (args : RunTestsArgs)
    (context : TestExecutionContext) (hasFailures : Bool) : TestFormat :=
  match args.format with
  | some f => f
  | none =>
    if hasFailures then TestFormat.detailed
    else if context.isMultiFile then TestFormat.detailed
    else configDefault

/-- Value carried by one configuration field (the resolved configuration
mixes strings, numbers, booleans and string arrays). -/
inductive ConfigValue where
  | str : String → ConfigValue
  | num : Nat → ConfigValue
  | flag : Bool → ConfigValue
  | strs : List String → ConfigValue
deriving DecidableEq, Repr

/-- The fields of `ResolvedConfig` as listed in the spec's data model:
`testDefaults{format, timeout, watchMode}`,
`coverageDefaults{format, exclude[]}`,
`discovery{testPatterns[], excludePatterns[], maxDepth}`,
`server{verbose, validatePaths, allowRootExecution, workingDirectory}`,
`safety{maxFiles, requireConfirmation, allowedRunners[], allowedPaths[]}`. -/
inductive ConfigField where
  | testFormat
  | testTimeout
  | testWatchMode
  | coverageFormat
  | coverageExclude
  | discoveryTestPatterns
  | discoveryExcludePatterns
  | discoveryMaxDepth
  | serverVerbose
  | serverValidatePaths
  | serverAllowRootExecution
  | serverWorkingDirectory
  | safetyMaxFiles
  | safetyRequireConfirmation
  | safetyAllowedRunners
  | safetyAllowedPaths
deriving DecidableEq, Repr

/-- A configuration tier (CLI arguments, environment, or config file):
a partial assignment of fields, where `none` stands for a field the tier
leaves unset (absent, `null` or `undefined`). -/
def ConfigTier : Type := ConfigField → Option ConfigValue

/-- The tier with no field set; a missing or broken config file is
treated as this tier. -/
def emptyTier : ConfigTier := fun _ => none

/-- Modelled from the spec: the built-in default configuration values of
the missing `config-loader` module (`testDefaults.format = 'summary'`,
`timeout = 30000`, verbose off, and the stock discovery/safety lists,
matching the values asserted by the shipped config-loader tests). -/
def builtinDefaults : ConfigField → ConfigValue
  | ConfigField.testFormat => ConfigValue.str "summary"
  | ConfigField.testTimeout => ConfigValue.num 30000
  | ConfigField.testWatchMode => ConfigValue.flag false
  | ConfigField.coverageFormat => ConfigValue.str "summary"
  | ConfigField.coverageExclude =>
      ConfigValue.strs ["**/node_modules/**", "**/dist/**", "**/*.stories.*", "**/e2e/**"]
  | ConfigField.discoveryTestPatterns =>
      ConfigValue.strs ["**/*.\x7btest,spec\x7d.\x7bjs,ts,jsx,tsx\x7d"]
  | ConfigField.discoveryExcludePatterns => ConfigValue.strs ["node_modules", "dist", "coverage", ".git"]
  | ConfigField.discoveryMaxDepth => ConfigValue.num 10
  | ConfigField.serverVerbose => ConfigValue.flag false
  | ConfigField.serverValidatePaths => ConfigValue.flag true
  | ConfigField.serverAllowRootExecution => ConfigValue.flag false
  | ConfigField.serverWorkingDirectory => ConfigValue.str "/"
  | ConfigField.safetyMaxFiles => ConfigValue.num 100
  | ConfigField.safetyRequireConfirmation => ConfigValue.flag true
  | ConfigField.safetyAllowedRunners => ConfigValue.strs ["vitest"]
  | ConfigField.safetyAllowedPaths => ConfigValue.strs []

/-- Modelled from the spec: the per-field four-tier merge of the missing
`config-loader` module, with strict precedence CLI > environment > file >
built-in default; an unset (`null`/`undefined`) value at a tier falls
through to the next lower tier. -/
def mergeTiers (cli env file : ConfigTier) : ConfigField → ConfigValue :=
  fun fld =>
    (Option.orElse (cli fld) (fun _ =>
      Option.orElse (env fld) (fun _ => file fld))).getD (builtinDefaults fld)

/-- Result of reading and parsing the config file: `Except.error`
represents an unreadable file, a permission error or malformed JSON. -/
def fileTierOf (r : Except String ConfigTier) : ConfigTier :=
  match r with
  | Except.ok t => t
  | Except.error _ => emptyTier

/-- Modelled from the spec: `loadConfiguration` of the missing
`config-loader` module — merges CLI, environment and (possibly broken)
file tiers over the built-in defaults; a read/parse failure of the file
is caught and treated as an absent tier, never propagated, and the
result is always a fully populated resolved configuration (a total
function on the fields). -/
def loadConfiguration (cli env : ConfigTier) (fileRead : Except String ConfigTier) :
    ConfigField → ConfigValue :=
  mergeTiers cli env (fileTierOf fileRead)

/-- Coverage metrics / thresholds, per the spec: four percentages
`{lines, functions, branches, statements}`. -/
structure CoverageMetrics where
  lines : Nat
  functions : Nat
  branches : Nat
  statements : Nat
deriving DecidableEq, Repr

/-- Modelled from the spec: `checkThresholdsMet(measured, thresholds)` of
the missing `vitest-config-reader` module — true when `thresholds` is
`null`, or when every measured metric is greater than or equal to its
threshold (equality passes). -/
def checkThresholdsMet (measured : CoverageMetrics)
    (thresholds : Option CoverageMetrics) : Bool :=
  match thresholds with
  | none => true
  | some t =>
    decide (t.lines ≤ measured.lines) &&
    decide (t.functions ≤ measured.functions) &&
    decide (t.branches ≤ measured.branches) &&
    decide (t.statements ≤ measured.statements)

/-- Violation message for one metric, formatted
`"<Metric> coverage (<measured>%) is below threshold (<threshold>%)"`. -/
def violationMsg (metric : String) (measured threshold : Nat) : String :=
  metric ++ " coverage (" ++ toString measured ++
    "%) is below threshold (" ++ toString threshold ++ "%)"

/-- Modelled from the spec: `getThresholdViolations(measured, thresholds)`
of the missing `vitest-config-reader` module — one message per metric
strictly below its threshold, empty when thresholds are absent; metric
names `Line`/`Function`/`Branch`/`Statement` as in the shipped tests. -/
def getThresholdViolations (m : CoverageMetrics)
    (thresholds : Option CoverageMetrics) : List String :=
  match thresholds with
  | none => []
  | some t =>
    (if m.lines < t.lines then [violationMsg "Line" m.lines t.lines] else []) ++
    (if m.functions < t.functions then [violationMsg "Function" m.functions t.functions] else []) ++
    (if m.branches < t.branches then [violationMsg "Branch" m.branches t.branches] else []) ++
    (if m.statements < t.statements then [violationMsg "Statement" m.statements t.statements] else [])

/-- Classification of a discovered test file, per the spec
(`type ∈ {unit, integration, e2e}`). -/
inductive TestType where
  | unit
  | integration
  | e2e
deriving DecidableEq, Repr

/-- Record produced per discovered test file, per the spec's
`TestFileRecord {absolutePath, relativePath, type}`. -/
structure TestFileRecord where
  absolutePath : String
  relativePath : String
  type : TestType
deriving DecidableEq, Repr

/-- Abstract directory tree seen by discovery.  A directory carries the
outcome of reading it: `none` models a `readdir` failure (for example a
permission error), `some entries` a successful read. -/
inductive FSEntry where
  | file : String → FSEntry
  | dir : String → Option (List FSEntry) → FSEntry

/-- The fixed directory-name exclusion set of discovery, per the spec:
node_modules, dist, build, .git, coverage. -/
def fixedExcludes : List String :=
  ["node_modules", "dist", "build", ".git", "coverage"]

/-- Modelled from the spec: test-file qualification of the missing
`file-utils` module — the basename contains `.test.` or `.spec.`
followed by one of js, ts, jsx, tsx. -/
def isTestFile (name : String) : Bool :=
  [".test.js", ".test.ts", ".test.jsx", ".test.tsx",
   ".spec.js", ".spec.ts", ".spec.jsx", ".spec.tsx"].any
    (fun pat => containsStr name pat)

/-- Modelled from the spec: type classification of the missing
`file-utils` module — the first ancestor path segment that is literally
`e2e` or `integration` decides the type, otherwise `unit`. -/
def classifySegs : List String → TestType
  | [] => TestType.unit
  | s :: rest =>
    if s = "e2e" then TestType.e2e
    else if s = "integration" then TestType.integration
    else classifySegs rest

/-- Relative path of a child beneath the prefix segments `rel`. -/
def relJoin (rel : List String) (name : String) : String :=
  String.intercalate "/" (rel ++ [name])

/-- Modelled from the spec: the recursive walk of the missing
`file-utils` module's `findTestFiles`.  `d` is the remaining directory
depth (`discovery.maxDepth` at the root); excluded directories are
skipped entirely; a directory whose read fails contributes nothing from
its subtree; `rel` holds the path segments below the search root. -/
def walkEntries (root : String) (excludes : List String) :
    Nat → List String → List FSEntry → List TestFileRecord
  | d, rel, FSEntry.file name :: rest =>
    (if isTestFile name then
      [{ absolutePath := root ++ "/" ++ relJoin rel name,
         relativePath := relJoin rel name,
         type := classifySegs rel }]
     else []) ++ walkEntries root excludes d rel rest
  | d, rel, FSEntry.dir name read :: rest =>
    (if excludes.contains name then []
     else
       match d, read with
       | 0, _ => []
       | _ + 1, none => []
       | d' + 1, some sub => walkEntries root excludes d' (rel ++ [name]) sub) ++
    walkEntries root excludes d rel rest
  | _, _, [] => []

/-- Insertion into a list of records sorted ascending by relative path. -/
def insertByRel (r : TestFileRecord) : List TestFileRecord → List TestFileRecord
  | [] => [r]
  | x :: xs =>
    if r.relativePath ≤ x.relativePath then r :: x :: xs
    else x :: insertByRel r xs

/-- Insertion sort by relative path, the deterministic ascending order the
spec requires of discovery output. -/
def sortByRel : List TestFileRecord → List TestFileRecord
  | [] => []
  | x :: xs => insertByRel x (sortByRel xs)

/-- Modelled from the spec: `findTestFiles(root)` of the missing
`file-utils` module.  `rootRead` is the outcome of reading the root
directory: a failure there (`none`) yields the empty array rather than
partial results or a thrown error; otherwise the walk runs to
`maxDepth` and the matches are sorted ascending by relative path. -/
def findTestFiles (root : String) (excludes : List String) (maxDepth : Nat)
    (rootRead : Option (List FSEntry)) : List TestFileRecord :=
  match rootRead with
  | none => []
  | some entries => sortByRel (walkEntries root excludes maxDepth [] entries)

/-- Result of the `set_project_root` tool, per the spec's contract
`{success, message, projectRoot, projectName}`. -/
structure SetRootResult where
  success : Bool
  message : String
  projectRoot : String
  projectName : String
deriving DecidableEq, Repr

/-- Environment of the `set_project_root` handler: working directory,
abstracted filesystem queries, the declared package name found in a
directory's manifest (`none` when absent or unreadable), the
development-mode override flag (`VITEST_MCP_DEV_MODE`), and the
configured `safety.allowedPaths` (`none` when unset). -/
structure SetRootEnv where
  cwd : String
  fileExists : String → Bool
  isDirectory : String → Bool
  manifestName : String → Option String
  devMode : Bool
  allowedPaths : Option (List String)

/-- The tool's own package name as declared in its manifest, used by the
self-protection check. -/
def selfPackageName : String := "@djankies/vitest-mcp"

/-- `isInside p base` is true when `p` equals `base` or is nested under
it (`base` is a proper path prefix at a segment boundary). -/
def isInside (p base : String) : Bool :=
  p = base || charsPre (base ++ "/").data p.data

/-- Failure result of `set_project_root`: structured, never thrown, with
empty `projectRoot`/`projectName`, message prefixed as in the shipped
tests (`Failed to set project root: ...`). -/
def setRootFailure (msg : String) : SetRootResult :=
  { success := false
    message := "Failed to set project root: " ++ msg
    projectRoot := ""
    projectName := "" }

/-- Allow-list check of the handler: passes when `safety.allowedPaths`
is unset or empty, or when the resolved path equals or is nested under
one of the allowed paths. -/
def allowedOk (allowedPaths : Option (List String)) (resolved : String) : Bool :=
  match allowedPaths with
  | none => true
  | some [] => true
  | some (a :: rest) => (a :: rest).any (fun base => isInside resolved base)

/-- Modelled from the spec: `handleSetProjectRoot` of the missing
`set-project-root` module.  Validation order: required parameter, then
the `safety.allowedPaths` allow-list on the resolved absolute path, then
existence, then directory-ness, then the self-protection check on the
manifest's declared package name (overridable by the development-mode
flag).  Every failure is returned as a structured result, never
thrown. -/
def handleSetProjectRoot (env : SetRootEnv) (path : Option String) : SetRootResult :=
  match path with
  | none => setRootFailure "Path parameter is required"
  | some p =>
    if isBlank p then setRootFailure "Path parameter is required"
    else
      let resolved := resolvePath env.cwd p
      if !allowedOk env.allowedPaths resolved then
        setRootFailure "Access denied: path is outside allowed directories"
      else if !env.fileExists resolved then
        setRootFailure "Directory does not exist"
      else if !env.isDirectory resolved then
        setRootFailure "Path is not a directory"
      else if env.manifestName resolved = some selfPackageName && !env.devMode then
        setRootFailure ("Cannot set project root to the Vitest MCP package itself. " ++
          "This tool is meant to test other projects, not itself. " ++
          "Set VITEST_MCP_DEV_MODE=true to override.")
      else
        { success := true
          message := "Project root set to " ++ resolved ++
            (if env.devMode then " (Development mode enabled - self-targeting allowed)" else "")
          projectRoot := resolved
          projectName := lastSegment resolved }

/-- Raw invocation result of the `run_tests` handler before report
processing: the spawned command, a success flag and captured stderr. -/
structure RunRawResult where
  command : String
  success : Bool
  stderr : String
deriving DecidableEq, Repr

/-- Validation-failure result of `run_tests`: structured (`success` is
false, the diagnostic goes to the captured stderr), never thrown. -/
def runFailure (msg : String) : RunRawResult :=
  { command := "npx vitest run", success := false, stderr := msg }

/-- Modelled from the spec: the target-validation stage of the missing
`run-tests` module's `handleRunTests`.  An empty target, a target whose
resolved path does not exist, and a target resolving to the project root
itself are each converted into a structured failure result at the
handler boundary rather than propagated as a thrown exception; a valid
target is handed to the execution stage `exec` (abstracted here). -/
def handleRunTests (projectRoot : String) (fileExists : String → Bool)
    (target : String) (exec : String → RunRawResult) : RunRawResult :=
  if isBlank target then
    runFailure "Target parameter is required"
  else
    let resolved := resolvePath projectRoot target
    if !fileExists resolved then
      runFailure "Target does not exist"
    else if resolved = projectRoot then
      runFailure "Cannot run tests on entire project root. Please specify a test file or directory."
    else
      exec resolved

/-- C1: `determineFormat` returns the explicit `args.format` verbatim
whenever one is supplied, regardless of context or failures; otherwise
`hasFailures` forces `'detailed'`; otherwise `context.isMultiFile` forces
`'detailed'`; otherwise it falls back to the configured default, which is
the built-in `'summary'`. -/
theorem c1_determineFormat (cfg : TestFormat) (args : RunTestsArgs)
    (ctx : TestExecutionContext) (hasFailures : Bool) :
    (∀ f, args.format = some f → determineFormat cfg args ctx hasFailures = f) ∧
    (args.format = none → hasFailures = true →
      determineFormat cfg args ctx hasFailures = TestFormat.detailed) ∧
    (args.format = none → hasFailures = false → ctx.isMultiFile = true →
      determineFormat cfg args ctx hasFailures = TestFormat.detailed) ∧
    (args.format = none → hasFailures = false → ctx.isMultiFile = false →
      determineFormat cfg args ctx hasFailures = cfg) ∧
    (args.format = none → hasFailures = false → ctx.isMultiFile = false →
      determineFormat defaultTestFormat args ctx hasFailures = TestFormat.summary) := by
  refine ⟨?_, ?_, ?_, ?_, ?_⟩ <;> intros <;>
    simp_all [determineFormat, defaultTestFormat]

/-- Witness for C1: the four branches of `determineFormat` at concrete
inputs, via `c1_determineFormat`. -/
theorem c1_determineFormat_witness :
    determineFormat TestFormat.summary
      { target := "./tests", format := some TestFormat.summary }
      { isMultiFile := true, targetType := TargetKind.directory } true = TestFormat.summary ∧
    determineFormat TestFormat.summary { target := "./test.ts" }
      { isMultiFile := false, targetType := TargetKind.file } true = TestFormat.detailed ∧
    determineFormat TestFormat.summary { target := "./tests" }
      { isMultiFile := true, targetType := TargetKind.directory } false = TestFormat.detailed ∧
    determineFormat defaultTestFormat { target := "./test.ts" }
      { isMultiFile := false, targetType := TargetKind.file } false = TestFormat.summary :=
  ⟨(c1_determineFormat TestFormat.summary
      { target := "./tests", format := some TestFormat.summary }
      { isMultiFile := true, targetType := TargetKind.directory } true).1 _ rfl,
   (c1_determineFormat TestFormat.summary { target := "./test.ts" }
      { isMultiFile := false, targetType := TargetKind.file } true).2.1 rfl rfl,
   (c1_determineFormat TestFormat.summary { target := "./tests" }
      { isMultiFile := true, targetType := TargetKind.directory } false).2.2.1 rfl rfl rfl,
   (c1_determineFormat TestFormat.summary { target := "./test.ts" }
      { isMultiFile := false, targetType := TargetKind.file } false).2.2.2.2 rfl rfl rfl⟩

/-- C2: `loadConfiguration` resolves every field with strict precedence
CLI > environment > file > built-in default, and an unset
(`null`/`undefined`) value at a tier falls through to the next lower
tier instead of overwriting it. -/
theorem c2_loadConfiguration_precedence (cli env : ConfigTier)
    (fileRead : Except String ConfigTier) (fld : ConfigField) (v : ConfigValue) :
    (cli fld = some v → loadConfiguration cli env fileRead fld = v) ∧
    (cli fld = none → env fld = some v → loadConfiguration cli env fileRead fld = v) ∧
    (cli fld = none → env fld = none → fileTierOf fileRead fld = some v →
      loadConfiguration cli env fileRead fld = v) ∧
    (cli fld = none → env fld = none → fileTierOf fileRead fld = none →
      loadConfiguration cli env fileRead fld = builtinDefaults fld) := by
  unfold loadConfiguration mergeTiers
  refine ⟨?_, ?_, ?_, ?_⟩ <;> intros <;> simp_all [Option.orElse]

/-- A configuration tier that sets exactly one field. -/
def tierWith (fld : ConfigField) (v : ConfigValue) : ConfigTier :=
  fun f => if f = fld then some v else none

/-- Witness for C2: the format field set at two tiers with differing
values resolves to the higher tier, and unset fields fall through to
the built-in default, via `c2_loadConfiguration_precedence`. -/
theorem c2_loadConfiguration_precedence_witness :
    loadConfiguration (tierWith ConfigField.testFormat (ConfigValue.str "summary"))
      (tierWith ConfigField.testFormat (ConfigValue.str "detailed"))
      (Except.ok emptyTier) ConfigField.testFormat = ConfigValue.str "summary" ∧
    loadConfiguration emptyTier (tierWith ConfigField.testFormat (ConfigValue.str "detailed"))
      (Except.ok (tierWith ConfigField.testFormat (ConfigValue.str "summary")))
      ConfigField.testFormat = ConfigValue.str "detailed" ∧
    loadConfiguration emptyTier emptyTier
      (Except.ok (tierWith ConfigField.testTimeout (ConfigValue.num 45000)))
      ConfigField.testTimeout = ConfigValue.num 45000 ∧
    loadConfiguration emptyTier emptyTier (Except.ok emptyTier)
      ConfigField.testFormat = ConfigValue.str "summary" :=
  ⟨(c2_loadConfiguration_precedence _ _ _ _ _).1 (by decide),
   (c2_loadConfiguration_precedence _ _ _ _ _).2.1 (by decide) (by decide),
   (c2_loadConfiguration_precedence _ _ _ _ _).2.2.1 (by decide) (by decide) (by decide),
   (c2_loadConfiguration_precedence _ _ _ _ (ConfigValue.str "summary")).2.2.2
     (by decide) (by decide) (by decide)⟩

/-- C7: configuration resolution never throws — it is embedded as a
total function — and when the config file is unreadable or holds
malformed JSON (`Except.error`), the file tier is treated as absent:
every field resolves exactly as with an empty file tier, falling back
to CLI, then environment, then the built-in default. -/
theorem c7_loadConfiguration_brokenFile (cli env : ConfigTier) (e : String)
    (fld : ConfigField) :
    loadConfiguration cli env (Except.error e) fld =
      (Option.orElse (cli fld) (fun _ => env fld)).getD (builtinDefaults fld) ∧
    loadConfiguration cli env (Except.error e) fld =
      loadConfiguration cli env (Except.ok emptyTier) fld := by
  unfold loadConfiguration mergeTiers fileTierOf emptyTier
  cases hc : cli fld <;> cases he : env fld <;> simp [Option.orElse]

/-- C3: `checkThresholdsMet` returns true exactly when thresholds are
absent or every one of the four measured metrics is at least its
threshold; equality at the boundary passes. -/
theorem c3_checkThresholdsMet (m t : CoverageMetrics) :
    checkThresholdsMet m none = true ∧
    (checkThresholdsMet m (some t) = true ↔
      (t.lines ≤ m.lines ∧ t.functions ≤ m.functions ∧
       t.branches ≤ m.branches ∧ t.statements ≤ m.statements)) ∧
    checkThresholdsMet m (some m) = true := by
  refine ⟨rfl, ?_, ?_⟩ <;> simp [checkThresholdsMet, and_assoc]

/-- C8: `getThresholdViolations` yields exactly one message per metric
strictly below its threshold, formatted
`"<Metric> coverage (<measured>%) is below threshold (<threshold>%)"`,
and the empty list when thresholds are absent or all metrics meet their
thresholds. -/
theorem c8_getThresholdViolations (m t : CoverageMetrics) :
    getThresholdViolations m none = [] ∧
    ((t.lines ≤ m.lines ∧ t.functions ≤ m.functions ∧
      t.branches ≤ m.branches ∧ t.statements ≤ m.statements) →
      getThresholdViolations m (some t) = []) ∧
    (m.lines < t.lines →
      violationMsg "Line" m.lines t.lines ∈ getThresholdViolations m (some t)) ∧
    (m.functions < t.functions →
      violationMsg "Function" m.functions t.functions ∈ getThresholdViolations m (some t)) ∧
    (m.branches < t.branches →
      violationMsg "Branch" m.branches t.branches ∈ getThresholdViolations m (some t)) ∧
    (m.statements < t.statements →
      violationMsg "Statement" m.statements t.statements ∈ getThresholdViolations m (some t)) ∧
    (getThresholdViolations m (some t)).length =
      ((if m.lines < t.lines then 1 else 0) +
       (if m.functions < t.functions then 1 else 0) +
       (if m.branches < t.branches then 1 else 0) +
       (if m.statements < t.statements then 1 else 0)) := by
  refine ⟨rfl, ?_, ?_, ?_, ?_, ?_, ?_⟩
  · rintro ⟨h1, h2, h3, h4⟩
    simp [getThresholdViolations, Nat.not_lt.mpr h1, Nat.not_lt.mpr h2,
      Nat.not_lt.mpr h3, Nat.not_lt.mpr h4]
  · intro h; simp [getThresholdViolations, h]
  · intro h; simp [getThresholdViolations, h]
  · intro h; simp [getThresholdViolations, h]
  · intro h; simp [getThresholdViolations, h]
  · by_cases h1 : m.lines < t.lines <;> by_cases h2 : m.functions < t.functions <;>
      by_cases h3 : m.branches < t.branches <;> by_cases h4 : m.statements < t.statements <;>
      simp [getThresholdViolations, h1, h2, h3, h4]

/-- Witness for C8: the shipped tests' inputs — measured 50% against 80%
thresholds produces the Line violation message, all-passing metrics
produce no violations — via `c8_getThresholdViolations`. -/
theorem c8_getThresholdViolations_witness :
    violationMsg "Line" 50 80 ∈
      getThresholdViolations ⟨50, 50, 50, 50⟩ (some ⟨80, 80, 80, 80⟩) ∧
    getThresholdViolations ⟨100, 100, 100, 100⟩ (some ⟨80, 80, 80, 80⟩) = [] ∧
    (getThresholdViolations ⟨50, 50, 50, 50⟩ (some ⟨80, 80, 80, 80⟩)).length = 4 :=
  ⟨(c8_getThresholdViolations _ _).2.2.1 (by decide),
   (c8_getThresholdViolations _ _).2.1 (by decide),
   (c8_getThresholdViolations _ _).2.2.2.2.2.2⟩

/-- C4: with no allow-list configured, `handleSetProjectRoot` fails with
a distinct message for each invalid input — missing/blank path
(`Path parameter is required`), non-existent resolved path
(`Directory does not exist`), existing non-directory path
(`Path is not a directory`), a directory whose manifest declares the
tool's own package name (`Cannot set project root to the Vitest MCP
package itself`) — and the development-mode override flag turns the
self-targeting case into a success. -/
theorem c4_handleSetProjectRoot_messages (env : SetRootEnv) (p : String)
    (hAllow : env.allowedPaths = none) :
    ((handleSetProjectRoot env none).success = false ∧
      containsStr (handleSetProjectRoot env none).message
        "Path parameter is required" = true) ∧
    (isBlank p = true →
      (handleSetProjectRoot env (some p)).success = false ∧
      containsStr (handleSetProjectRoot env (some p)).message
        "Path parameter is required" = true) ∧
    (isBlank p = false → env.fileExists (resolvePath env.cwd p) = false →
      (handleSetProjectRoot env (some p)).success = false ∧
      containsStr (handleSetProjectRoot env (some p)).message
        "Directory does not exist" = true) ∧
    (isBlank p = false → env.fileExists (resolvePath env.cwd p) = true →
      env.isDirectory (resolvePath env.cwd p) = false →
      (handleSetProjectRoot env (some p)).success = false ∧
      containsStr (handleSetProjectRoot env (some p)).message
        "Path is not a directory" = true) ∧
    (isBlank p = false → env.fileExists (resolvePath env.cwd p) = true →
      env.isDirectory (resolvePath env.cwd p) = true →
      env.manifestName (resolvePath env.cwd p) = some selfPackageName →
      env.devMode = false →
      (handleSetProjectRoot env (some p)).success = false ∧
      containsStr (handleSetProjectRoot env (some p)).message
        "Cannot set project root to the Vitest MCP package itself" = true) ∧
    (isBlank p = false → env.fileExists (resolvePath env.cwd p) = true →
      env.isDirectory (resolvePath env.cwd p) = true →
      env.manifestName (resolvePath env.cwd p) = some selfPackageName →
      env.devMode = true →
      (handleSetProjectRoot env (some p)).success = true) := by
  refine ⟨?_, ?_, ?_, ?_, ?_, ?_⟩ <;> intros <;>
    simp_all [handleSetProjectRoot, setRootFailure, allowedOk] <;> decide

/-- Witness for C4: the five failure messages and the development-mode
success at concrete environments, via `c4_handleSetProjectRoot_messages`. -/
theorem c4_handleSetProjectRoot_messages_witness :
    (let env : SetRootEnv :=
      { cwd := "/w", fileExists := fun _ => false, isDirectory := fun _ => false,
        manifestName := fun _ => none, devMode := false, allowedPaths := none }
     containsStr (handleSetProjectRoot env (some "   ")).message
       "Path parameter is required" = true ∧
     containsStr (handleSetProjectRoot env (some "/does/not/exist")).message
       "Directory does not exist" = true) ∧
    (let env : SetRootEnv :=
      { cwd := "/w", fileExists := fun _ => true, isDirectory := fun _ => false,
        manifestName := fun _ => none, devMode := false, allowedPaths := none }
     containsStr (handleSetProjectRoot env (some "/path/to/file.txt")).message
       "Path is not a directory" = true) ∧
    (let env : SetRootEnv :=
      { cwd := "/w", fileExists := fun _ => true, isDirectory := fun _ => true,
        manifestName := fun _ => some "@djankies/vitest-mcp", devMode := false,
        allowedPaths := none }
     containsStr (handleSetProjectRoot env (some "/path/to/vitest-mcp")).message
       "Cannot set project root to the Vitest MCP package itself" = true) ∧
    (let env : SetRootEnv :=
      { cwd := "/w", fileExists := fun _ => true, isDirectory := fun _ => true,
        manifestName := fun _ => some "@djankies/vitest-mcp", devMode := true,
        allowedPaths := none }
     (handleSetProjectRoot env (some "/path/to/vitest-mcp")).success = true) :=
  ⟨⟨((c4_handleSetProjectRoot_messages _ "   " rfl).2.1 (by decide)).2,
    ((c4_handleSetProjectRoot_messages _ "/does/not/exist" rfl).2.2.1
      (by decide) rfl).2⟩,
   ((c4_handleSetProjectRoot_messages _ "/path/to/file.txt" rfl).2.2.2.1
      (by decide) rfl rfl).2,
   ((c4_handleSetProjectRoot_messages _ "/path/to/vitest-mcp" rfl).2.2.2.2.1
      (by decide) rfl rfl rfl rfl).2,
   (c4_handleSetProjectRoot_messages _ "/path/to/vitest-mcp" rfl).2.2.2.2.2
      (by decide) rfl rfl rfl rfl⟩

/-- C5: when `safety.allowedPaths` is configured non-empty, a call can
succeed only if the resolved absolute path equals or is nested under one
of the allowed paths, and any non-blank input whose resolved path —
including one that escapes via `..` traversal — lies outside all of them
fails with an access-denied message containing
`outside allowed directories`. -/
theorem c5_allowedPaths_enforced (env : SetRootEnv) (p a : String)
    (rest : List String) (hAllow : env.allowedPaths = some (a :: rest)) :
    ((handleSetProjectRoot env (some p)).success = true →
      (a :: rest).any (fun base => isInside (resolvePath env.cwd p) base) = true) ∧
    (isBlank p = false →
      (a :: rest).any (fun base => isInside (resolvePath env.cwd p) base) = false →
      (handleSetProjectRoot env (some p)).success = false ∧
      containsStr (handleSetProjectRoot env (some p)).message
        "outside allowed directories" = true) := by
  constructor
  · intro hs
    by_cases hb : isBlank p
    · simp [handleSetProjectRoot, hb, setRootFailure] at hs
    · by_cases hA : (a :: rest).any (fun base => isInside (resolvePath env.cwd p) base)
      · exact hA
      · simp [handleSetProjectRoot, hb, hAllow, allowedOk,
          Bool.eq_false_iff.mpr hA, setRootFailure] at hs
  · intro hb hA
    refine ⟨?_, ?_⟩ <;>
      · simp [handleSetProjectRoot, hb, hAllow, allowedOk, hA, setRootFailure]
        try decide

/-- Witness for C5: with allow-list `['/safe/path']`, the traversal input
`/safe/path/../../../etc` resolves to `/etc` and is rejected with the
access-denied message, while with allow-list `['/allowed/base']` a nested
project succeeds and is indeed inside, via `c5_allowedPaths_enforced`. -/
theorem c5_allowedPaths_enforced_witness :
    (let env : SetRootEnv :=
      { cwd := "/w", fileExists := fun _ => true, isDirectory := fun _ => true,
        manifestName := fun _ => none, devMode := false,
        allowedPaths := some ["/safe/path"] }
     (handleSetProjectRoot env (some "/safe/path/../../../etc")).success = false ∧
     containsStr (handleSetProjectRoot env (some "/safe/path/../../../etc")).message
       "outside allowed directories" = true) ∧
    (let env : SetRootEnv :=
      { cwd := "/w", fileExists := fun _ => true, isDirectory := fun _ => true,
        manifestName := fun _ => none, devMode := false,
        allowedPaths := some ["/allowed/base"] }
     ["/allowed/base"].any
       (fun base => isInside (resolvePath env.cwd "/allowed/base/project") base) = true) :=
  ⟨(c5_allowedPaths_enforced _ "/safe/path/../../../etc" "/safe/path" [] rfl).2
     (by decide) (by decide),
   (c5_allowedPaths_enforced _ "/allowed/base/project" "/allowed/base" [] rfl).1
     (by decide)⟩

/-- C6: the `run_tests` handler converts each target-validation failure
into a structured result with `success = false` — an empty target yields
`Target parameter is required`, a target whose resolved path does not
exist yields `Target does not exist`, and a target resolving to the
project root itself yields `Cannot run tests on entire project root.` —
rather than propagating a thrown exception (the handler is total and
always returns a `RunRawResult`). -/
theorem c6_handleRunTests_validation (projectRoot : String)
    (fileExists : String → Bool) (target : String)
    (exec : String → RunRawResult) :
    (isBlank target = true →
      (handleRunTests projectRoot fileExists target exec).success = false ∧
      containsStr (handleRunTests projectRoot fileExists target exec).stderr
        "Target parameter is required" = true) ∧
    (isBlank target = false →
      fileExists (resolvePath projectRoot target) = false →
      (handleRunTests projectRoot fileExists target exec).success = false ∧
      containsStr (handleRunTests projectRoot fileExists target exec).stderr
        "Target does not exist" = true) ∧
    (isBlank target = false →
      fileExists (resolvePath projectRoot target) = true →
      resolvePath projectRoot target = projectRoot →
      (handleRunTests projectRoot fileExists target exec).success = false ∧
      containsStr (handleRunTests projectRoot fileExists target exec).stderr
        "Cannot run tests on entire project root." = true) := by
  refine ⟨?_, ?_, ?_⟩ <;> intros <;>
    simp_all [handleRunTests, runFailure] <;> decide

/-- Witness for C6: an empty target, a non-existent target, and the
target `./` resolving to the project root, each at a concrete
environment, via `c6_handleRunTests_validation`. -/
theorem c6_handleRunTests_validation_witness :
    (let ok : String → RunRawResult := fun c => ⟨c, true, ""⟩
     (handleRunTests "/test/project" (fun _ => true) "" ok).success = false ∧
     containsStr (handleRunTests "/test/project" (fun _ => true) "" ok).stderr
       "Target parameter is required" = true) ∧
    (let ok : String → RunRawResult := fun c => ⟨c, true, ""⟩
     containsStr
       (handleRunTests "/test/project" (fun _ => false) "./nonexistent.ts" ok).stderr
       "Target does not exist" = true) ∧
    (let ok : String → RunRawResult := fun c => ⟨c, true, ""⟩
     containsStr (handleRunTests "/test/project" (fun _ => true) "./" ok).stderr
       "Cannot run tests on entire project root." = true) :=
  ⟨(c6_handleRunTests_validation "/test/project" (fun _ => true) ""
      (fun c => ⟨c, true, ""⟩)).1 (by decide),
   ((c6_handleRunTests_validation "/test/project" (fun _ => false) "./nonexistent.ts"
      (fun c => ⟨c, true, ""⟩)).2.1 (by decide) rfl).2,
   ((c6_handleRunTests_validation "/test/project" (fun _ => true) "./"
      (fun c => ⟨c, true, ""⟩)).2.2 (by decide) rfl (by decide)).2⟩

/-- C9: a read failure at the root directory makes `findTestFiles`
return the empty array rather than partial results or a thrown error
(the walk is total), and a read failure in a nested subdirectory is
swallowed silently: that subtree contributes no entries and the rest of
the result is unchanged. -/
theorem c9_findTestFiles_readFailures (root : String) (excludes : List String)
    (d : Nat) (rel : List String) (name : String) (rest entries : List FSEntry) :
    findTestFiles root excludes d none = [] ∧
    walkEntries root excludes d rel (FSEntry.dir name none :: rest) =
      walkEntries root excludes d rel rest ∧
    findTestFiles root excludes d (some (FSEntry.dir name none :: entries)) =
      findTestFiles root excludes d (some entries) := by
  have hwalk : ∀ (d : Nat) (rel : List String) (rest : List FSEntry),
      walkEntries root excludes d rel (FSEntry.dir name none :: rest) =
        walkEntries root excludes d rel rest := by
    intro d rel rest
    cases d <;> simp [walkEntries]
  exact ⟨rfl, hwalk d rel rest, by simp [findTestFiles, hwalk]⟩

/-- C10: every failing invocation of `handleSetProjectRoot` returns
normally (the handler is total) with `success = false`, an empty
`projectRoot` and an empty `projectName`. -/
theorem c10_failure_clears_root (env : SetRootEnv) (path : Option String)
    (h : (handleSetProjectRoot env path).success = false) :
    (handleSetProjectRoot env path).projectRoot = "" ∧
    (handleSetProjectRoot env path).projectName = "" := by
  cases path with
  | none => simp [handleSetProjectRoot, setRootFailure]
  | some p =>
    simp only [handleSetProjectRoot] at h ⊢
    split_ifs at h ⊢ <;> simp_all [setRootFailure]

/-- Witness for C10: a concrete failing invocation (non-existent
directory) has empty `projectRoot` and `projectName`, via
`c10_failure_clears_root`. -/
theorem c10_failure_clears_root_witness :
    (handleSetProjectRoot
      { cwd := "/w", fileExists := fun _ => false, isDirectory := fun _ => false,
        manifestName := fun _ => none, devMode := false, allowedPaths := none }
      (some "/does/not/exist")).projectRoot = "" ∧
    (handleSetProjectRoot
      { cwd := "/w", fileExists := fun _ => false, isDirectory := fun _ => false,
        manifestName := fun _ => none, devMode := false, allowedPaths := none }
      (some "/does/not/exist")).projectName = "" :=
  c10_failure_clears_root _ _ (by decide)

end VMCP
